import Mathlib

/-!
Verification of the gamemaster-scheduling-app session / RSVP / chat subsystem.

The Go source is embedded shallowly: each SQLite table is a list of rows, the
database helpers (`internal/database/*.go`) are pure functions on a `Store`,
`CURRENT_TIMESTAMP` is an explicit `now : Nat` argument, and the HTTP handlers
(`internal/handlers/*.go`) are functions from a store (plus the form fields
already parsed) to a pair of the updated store and an abstract response.
HTML rendering, routing and cookie transport are out of scope; a handler
response constructor records which branch of the handler ran.
-/

namespace Scheduler

/-- Status constants from `internal/models/rsvp.go` (RSVPStatusAttending). -/
def RSVPStatusAttending : String := "attending"

/-- Status constant `RSVPStatusNotAttending` from `internal/models/rsvp.go`. -/
def RSVPStatusNotAttending : String := "not_attending"

/-- Status constant `RSVPStatusMaybe` from `internal/models/rsvp.go`. -/
def RSVPStatusMaybe : String := "maybe"

/-- A row of the `users` table (schema.sql): id, email, password_hash, created_at. -/
structure UserRow where
  id : Nat
  email : String
  passwordHash : String
  createdAt : Nat
  deriving Repr, DecidableEq

/-- A row of the `rsvps` table (schema.sql):
id, user_id, game_id, status, created_at, updated_at, with UNIQUE(user_id, game_id). -/
structure RSVPRow where
  id : Nat
  userId : Nat
  gameId : Nat
  status : String
  createdAt : Nat
  updatedAt : Nat
  deriving Repr, DecidableEq

/-- A row of the `chat_messages` table (schema.sql):
id, game_id, user_id, message_content, created_at. -/
structure ChatRow where
  id : Nat
  gameId : Nat
  userId : Nat
  messageContent : String
  createdAt : Nat
  deriving Repr, DecidableEq

/-- `models.RSVP` as produced by the read queries: an `rsvps` row joined with
`users.email` (field `UserEmail`). -/
structure RSVPView where
  id : Nat
  userId : Nat
  gameId : Nat
  status : String
  createdAt : Nat
  updatedAt : Nat
  userEmail : String
  deriving Repr, DecidableEq

/-- `models.ChatMessage` as produced by the read queries: a `chat_messages` row
joined with `users.email`. -/
structure ChatView where
  id : Nat
  gameId : Nat
  userId : Nat
  userEmail : String
  messageContent : String
  createdAt : Nat
  deriving Repr, DecidableEq

/-- The SQLite database: the three tables the claims touch, plus the
AUTOINCREMENT counters for their primary keys.  The `games` table is not
consulted by any of the operations under verification. -/
structure Store where
  users : List UserRow
  rsvps : List RSVPRow
  chat : List ChatRow
  nextUserId : Nat
  nextRsvpId : Nat
  nextChatId : Nat
  deriving Repr, DecidableEq

/-! ## users table (`internal/database/users_db.go`) -/

/-- Model of the external bcrypt library (`golang.org/x/crypto/bcrypt`):
`GenerateFromPassword` is abstracted as an injective tagged hash, so that
`CompareHashAndPassword` succeeds exactly when the password matches. -/
def hashPassword (password : String) : String := "bcrypt$" ++ password

/-- `VerifyPassword` from users_db.go: `bcrypt.CompareHashAndPassword`,
true on match. -/
def VerifyPassword (hashed password : String) : Bool := hashed == hashPassword password

/-- `GetUserByEmail` from users_db.go:
`SELECT ... FROM users WHERE email = ?`; `none` models `sql.ErrNoRows`. -/
def GetUserByEmail (s : Store) (email : String) : Option UserRow :=
  s.users.find? (fun u => u.email == email)

/-- `GetUserByID` from users_db.go: `SELECT ... FROM users WHERE id = ?`. -/
def GetUserByID (s : Store) (id : Nat) : Option UserRow :=
  s.users.find? (fun u => u.id == id)

/-- `CreateUser` from users_db.go: hash the password and
`INSERT INTO users(email, password_hash) VALUES(?, ?)`.  The insert violates
the schema constraint `email UNIQUE` when the email is already present, in
which case the driver reports an error, modelled as `none`. -/
def CreateUser (s : Store) (now : Nat) (email password : String) :
    Option (Store × UserRow) :=
  if s.users.any (fun u => u.email == email) then
    none
  else
    let u : UserRow :=
      { id := s.nextUserId, email := email,
        passwordHash := hashPassword password, createdAt := now }
    some ({ s with users := s.users ++ [u], nextUserId := s.nextUserId + 1 }, u)

/-! ## rsvps table (`internal/database/rsvps_db.go`) -/

/-- The `WHERE r.user_id = ? AND r.game_id = ?` predicate (the conflict target
`UNIQUE(user_id, game_id)` of the upsert). -/
def rsvpKeyMatch (userId gameId : Nat) (r : RSVPRow) : Bool :=
  r.userId == userId && r.gameId == gameId

/-- `CreateOrUpdateRSVP` from rsvps_db.go:
`INSERT INTO rsvps (user_id, game_id, status, created_at, updated_at)
VALUES (?, ?, ?, CURRENT_TIMESTAMP, CURRENT_TIMESTAMP)
ON CONFLICT(user_id, game_id) DO UPDATE SET status = excluded.status,
updated_at = CURRENT_TIMESTAMP`. -/
def CreateOrUpdateRSVP (s : Store) (now userId gameId : Nat) (status : String) :
    Store :=
  if s.rsvps.any (rsvpKeyMatch userId gameId) then
    { s with rsvps := s.rsvps.map (fun r =>
        if rsvpKeyMatch userId gameId r then
          { r with status := status, updatedAt := now }
        else r) }
  else
    { s with
      rsvps := s.rsvps ++ [{ id := s.nextRsvpId, userId := userId, gameId := gameId,
                             status := status, createdAt := now, updatedAt := now }],
      nextRsvpId := s.nextRsvpId + 1 }

/-- The `JOIN users u ON r.user_id = u.id` of the RSVP read queries: an inner
join keeping exactly the rows whose user exists, carrying `u.email` along. -/
def joinRSVPUsers (users : List UserRow) (rs : List RSVPRow) : List RSVPView :=
  rs.filterMap (fun r =>
    (users.find? (fun u => u.id == r.userId)).map (fun u =>
      { id := r.id, userId := r.userId, gameId := r.gameId, status := r.status,
        createdAt := r.createdAt, updatedAt := r.updatedAt, userEmail := u.email }))

/-- The `ORDER BY r.updated_at DESC` comparison of `GetRSVPsForGame`. -/
def rsvpUpdatedDesc (a b : RSVPView) : Prop := b.updatedAt ≤ a.updatedAt

instance : DecidableRel rsvpUpdatedDesc := fun a b => Nat.decLe b.updatedAt a.updatedAt

instance : IsTotal RSVPView rsvpUpdatedDesc := ⟨fun a b => Nat.le_total b.updatedAt a.updatedAt⟩

instance : IsTrans RSVPView rsvpUpdatedDesc := ⟨fun _ _ _ hab hbc => Nat.le_trans hbc hab⟩

/-- `GetRSVPsForGame` from rsvps_db.go:
`SELECT ... FROM rsvps r JOIN users u ON r.user_id = u.id
WHERE r.game_id = ? ORDER BY r.updated_at DESC`.
On a successful query (the only case the pure model has) the Go code returns a
nil error, also when zero rows match. -/
def GetRSVPsForGame (s : Store) (gameId : Nat) : List RSVPView :=
  List.insertionSort rsvpUpdatedDesc
    (joinRSVPUsers s.users (s.rsvps.filter (fun r => r.gameId == gameId)))

/-- `GetRSVPByUserForGame` from rsvps_db.go:
`SELECT ... WHERE r.user_id = ? AND r.game_id = ?` with the same join;
`none` models `sql.ErrNoRows`. -/
def GetRSVPByUserForGame (s : Store) (userId gameId : Nat) : Option RSVPView :=
  (joinRSVPUsers s.users (s.rsvps.filter (rsvpKeyMatch userId gameId))).head?

/-! ## chat_messages table (database/chat_db.go) -/

/-- The join of the chat read queries, identical in shape to the RSVP one. -/
def joinChatUsers (users : List UserRow) (ms : List ChatRow) : List ChatView :=
  ms.filterMap (fun m =>
    (users.find? (fun u => u.id == m.userId)).map (fun u =>
      { id := m.id, gameId := m.gameId, userId := m.userId, userEmail := u.email,
        messageContent := m.messageContent, createdAt := m.createdAt }))

/-- The `ORDER BY cm.created_at ASC` comparison of `GetChatMessagesForGame`. -/
def chatCreatedAsc (a b : ChatView) : Prop := a.createdAt ≤ b.createdAt

instance : DecidableRel chatCreatedAsc := fun a b => Nat.decLe a.createdAt b.createdAt

instance : IsTotal ChatView chatCreatedAsc := ⟨fun a b => Nat.le_total a.createdAt b.createdAt⟩

instance : IsTrans ChatView chatCreatedAsc := ⟨fun _ _ _ hab hbc => Nat.le_trans hab hbc⟩

/-- `GetChatMessagesForGame`:
`SELECT ... FROM chat_messages cm JOIN users u ON cm.user_id = u.id
WHERE cm.game_id = ? ORDER BY cm.created_at ASC`. -/
def GetChatMessagesForGame (s : Store) (gameId : Nat) : List ChatView :=
  List.insertionSort chatCreatedAsc
    (joinChatUsers s.users (s.chat.filter (fun m => m.gameId == gameId)))

/-- `CreateChatMessage`:
`INSERT INTO chat_messages(game_id, user_id, message_content) VALUES(?, ?, ?)`
(created_at filled by the schema default), then a select-back of the inserted
row joined with `users` to return the complete `models.ChatMessage`.  The
insert always lands; the select-back yields `none` when the join finds no user
(the function then returns an error, with the row already inserted). -/
def CreateChatMessage (s : Store) (now gameId userId : Nat) (content : String) :
    Store × Option ChatView :=
  let row : ChatRow :=
    { id := s.nextChatId, gameId := gameId, userId := userId,
      messageContent := content, createdAt := now }
  let s' := { s with chat := s.chat ++ [row], nextChatId := s.nextChatId + 1 }
  (s', (s.users.find? (fun u => u.id == userId)).map (fun u =>
    { id := row.id, gameId := gameId, userId := userId, userEmail := u.email,
      messageContent := content, createdAt := now }))

/-! ## Session registry (`internal/handlers/auth_handlers.go`)

`var SessionStore = make(map[string]int64)` is a bare Go map from session
token to user id; it is embedded as an association list with the Go map
semantics (assignment overwrites an existing key, `delete` on a missing key is
a no-op, lookup returns the unique binding). -/

/-- The session registry state: the Go map `SessionStore`. -/
abbrev SessionMap := List (String × Nat)

/-- Go map assignment `SessionStore[sessionToken] = user.ID` (performed by
`Login` after credential validation). -/
def sessionAssign (st : SessionMap) (token : String) (userId : Nat) : SessionMap :=
  if st.any (fun p => p.1 == token) then
    st.map (fun p => if p.1 == token then (token, userId) else p)
  else st ++ [(token, userId)]

/-- Go map read `userID, ok := SessionStore[sessionToken]`. -/
def sessionLookup (st : SessionMap) (token : String) : Option Nat :=
  (st.find? (fun p => p.1 == token)).map (fun p => p.2)

/-- Go `delete(SessionStore, sessionToken)` (performed by `Logout`). -/
def sessionDelete (st : SessionMap) (token : String) : SessionMap :=
  st.filter (fun p => p.1 != token)

/-- `IsAuthenticated` from auth_handlers.go: false when the request has no
session cookie, otherwise true iff the token carried by the cookie is in `SessionStore`.
The cookie argument is the `session_token` cookie of the request, if present. -/
def IsAuthenticated (st : SessionMap) (cookie : Option String) : Bool :=
  match cookie with
  | none => false
  | some token => (sessionLookup st token).isSome

/-- `Logout` from auth_handlers.go: if the request carries a session cookie,
`delete(SessionStore, sessionToken)` and clear the cookie; in every case
redirect to /login.  Only the registry effect is modelled. -/
def Logout (st : SessionMap) (cookie : Option String) : SessionMap :=
  match cookie with
  | none => st
  | some token => sessionDelete st token

/-! ## Handlers -/

/-- Outcome of the `Login` handler (auth_handlers.go), after method check and
form parsing. -/
inductive LoginResponse where
  /-- Empty email or password: re-render with "Email and password are required." -/
  | missingFields
  /-- Re-render the login page with the generic "Invalid email or password."
  message (used both for an unknown email and for a wrong password). -/
  | invalidCreds
  /-- Session cookie set to the fresh token; 303 redirect to the target path. -/
  | redirect (cookieToken : String) (target : String)
  deriving Repr, DecidableEq

/-- `Login` from auth_handlers.go: look the email up, verify the password with
bcrypt, and on success store `SessionStore[token] = user.ID` and redirect to
/games.  `freshToken` stands for the `uuid.NewRandom()` value.  Returns the
updated registry and the response. -/
def Login (s : Store) (sessions : SessionMap) (freshToken email password : String) :
    SessionMap × LoginResponse :=
  if email == "" || password == "" then
    (sessions, .missingFields)
  else
    match GetUserByEmail s email with
    | none => (sessions, .invalidCreds)
    | some user =>
      if VerifyPassword user.passwordHash password then
        (sessionAssign sessions freshToken user.id, .redirect freshToken "/games")
      else
        (sessions, .invalidCreds)

/-- Outcome of the `Register` handler (auth_handlers.go). -/
inductive RegisterResponse where
  /-- Empty email or password: re-render with "Email and password are required." -/
  | missingFields
  /-- Re-render with "Passwords do not match." -/
  | passwordMismatch
  /-- `GetUserByEmail` found a user: re-render with "Email already registered." -/
  | emailTaken
  /-- `CreateUser` failed: 500 "Could not create user". -/
  | storageFault
  /-- Success: 303 redirect to /login. -/
  | redirectLogin
  deriving Repr, DecidableEq

/-- `Register` from auth_handlers.go: field validation, duplicate-email check
via `GetUserByEmail`, then `CreateUser`. -/
def Register (s : Store) (now : Nat) (email password confirmPassword : String) :
    Store × RegisterResponse :=
  if email == "" || password == "" then
    (s, .missingFields)
  else if password != confirmPassword then
    (s, .passwordMismatch)
  else
    match GetUserByEmail s email with
    | some _ => (s, .emailTaken)
    | none =>
      match CreateUser s now email password with
      | some (s', _) => (s', .redirectLogin)
      | none => (s, .storageFault)

/-- Outcome of the `SubmitRSVP` handler (rsvp_handlers.go), after the auth,
path and form-parsing steps. -/
inductive RSVPSubmitResponse where
  /-- 400 "Invalid RSVP status value"; the handler returns before touching the
  database. -/
  | invalidStatus
  /-- Upsert performed; the RSVP section is re-rendered. -/
  | ok
  deriving Repr, DecidableEq

/-- The status validation switch of `SubmitRSVP`. -/
def validRSVPStatus (status : String) : Bool :=
  status == RSVPStatusAttending || status == RSVPStatusNotAttending ||
    status == RSVPStatusMaybe

/-- `SubmitRSVP` from rsvp_handlers.go, from the point where the authenticated
user, the game id and the `status` form value are in hand: validate the status
against the three enumerated values, then call `CreateOrUpdateRSVP`. -/
def SubmitRSVP (s : Store) (now userId gameId : Nat) (status : String) :
    Store × RSVPSubmitResponse :=
  if validRSVPStatus status then
    (CreateOrUpdateRSVP s now userId gameId status, .ok)
  else
    (s, .invalidStatus)

/-- Outcome of the `PostChatMessage` handler (chat_handlers.go). -/
inductive ChatPostResponse where
  /-- Trimmed content empty: the chat section is re-rendered with the existing
  transcript and the error "Message content cannot be empty." -/
  | emptyContent (transcript : List ChatView)
  /-- Message stored; the refreshed transcript is re-rendered. -/
  | posted (transcript : List ChatView)
  /-- `CreateChatMessage` returned an error: 500 "Failed to post message." -/
  | storageFault
  deriving Repr, DecidableEq

/-- Model of Go `strings.TrimSpace`: drop whitespace characters from both
ends of the string (written over the character list so that it evaluates
inside the kernel). -/
def trimSpace (s : String) : String :=
  ⟨(((s.toList.dropWhile Char.isWhitespace).reverse.dropWhile
      Char.isWhitespace).reverse)⟩

/-- `PostChatMessage` from chat_handlers.go, from the point where the
authenticated user, the game id and the `message_content` form value are in
hand: reject whitespace-only content (fetching the existing messages to
re-render them alongside the error), otherwise insert and re-read. -/
def PostChatMessage (s : Store) (now userId gameId : Nat) (content : String) :
    Store × ChatPostResponse :=
  if trimSpace content == "" then
    (s, .emptyContent (GetChatMessagesForGame s gameId))
  else
    match CreateChatMessage s now gameId userId content with
    | (s', some _) => (s', .posted (GetChatMessagesForGame s' gameId))
    | (s', none) => (s', .storageFault)

/-! ## Invariants and observation helpers -/

/-- The schema constraint `UNIQUE (user_id, game_id)` on `rsvps`. -/
def RSVPPairUnique (s : Store) : Prop :=
  s.rsvps.Pairwise (fun a b => ¬(a.userId = b.userId ∧ a.gameId = b.gameId))

/-- The schema constraint `email TEXT UNIQUE` on `users`. -/
def EmailUnique (s : Store) : Prop :=
  s.users.Pairwise (fun a b => a.email ≠ b.email)

/-- The rows of the `rsvps` table for one (user, game) pair. -/
def pairRows (s : Store) (userId gameId : Nat) : List RSVPRow :=
  s.rsvps.filter (rsvpKeyMatch userId gameId)

/-- The rows of the `users` table with a given email. -/
def emailRows (s : Store) (email : String) : List UserRow :=
  s.users.filter (fun u => u.email == email)

instance : DecidablePred (RSVPPairUnique ·) := fun s =>
  List.instDecidablePairwise s.rsvps

instance : DecidablePred (EmailUnique ·) := fun s =>
  List.instDecidablePairwise s.users

/-! ## Helper lemmas -/

/-- After deleting a token, looking the same token up misses. -/
theorem sessionLookup_sessionDelete (st : SessionMap) (tok : String) :
    sessionLookup (sessionDelete st tok) tok = none := by
  simp only [sessionLookup, sessionDelete, Option.map_eq_none']
  rw [List.find?_eq_none]
  intro x hx
  have h1 := List.of_mem_filter hx
  simp only [bne_iff_ne, ne_eq] at h1
  simp [h1]

/-- Unfolding of the (user, game) key test. -/
theorem rsvpKeyMatch_true {u g : Nat} {r : RSVPRow} :
    rsvpKeyMatch u g r = true ↔ r.userId = u ∧ r.gameId = g := by
  simp [rsvpKeyMatch]

/-- The DO UPDATE assignment of the upsert touches only `status` and
`updated_at`, so it never changes whether a row matches the key. -/
theorem rsvpKeyMatch_update (u g t : Nat) (st : String) (r : RSVPRow) :
    rsvpKeyMatch u g
        (if rsvpKeyMatch u g r then { r with status := st, updatedAt := t } else r)
      = rsvpKeyMatch u g r := by
  by_cases h : rsvpKeyMatch u g r = true
  · rw [if_pos h, h]
    obtain ⟨h1, h2⟩ := rsvpKeyMatch_true.mp h
    simp [rsvpKeyMatch, h1, h2]
  · rw [Bool.not_eq_true] at h
    simp [h]

/-- Under the UNIQUE(user_id, game_id) constraint, a key that is present is
present in exactly one row. -/
theorem filter_key_singleton {u g : Nat} :
    ∀ {l : List RSVPRow},
      l.Pairwise (fun a b => ¬(a.userId = b.userId ∧ a.gameId = b.gameId)) →
      l.any (rsvpKeyMatch u g) = true →
      ∃ r0, l.filter (rsvpKeyMatch u g) = [r0] ∧ rsvpKeyMatch u g r0 = true := by
  intro l
  induction l with
  | nil => intro _ h; simp at h
  | cons a l ih =>
    intro hp hany
    obtain ⟨ha, hl⟩ := List.pairwise_cons.mp hp
    by_cases hka : rsvpKeyMatch u g a = true
    · refine ⟨a, ?_, hka⟩
      have hnil : l.filter (rsvpKeyMatch u g) = [] := by
        rw [List.filter_eq_nil_iff]
        intro b hb hkb
        obtain ⟨hu1, hg1⟩ := rsvpKeyMatch_true.mp hka
        obtain ⟨hu2, hg2⟩ := rsvpKeyMatch_true.mp hkb
        exact ha b hb ⟨hu1.trans hu2.symm, hg1.trans hg2.symm⟩
      simp [List.filter_cons, hka, hnil]
    · rw [Bool.not_eq_true] at hka
      have hany' : l.any (rsvpKeyMatch u g) = true := by
        simpa [List.any_cons, hka] using hany
      obtain ⟨r0, hf, hk⟩ := ih hl hany'
      exact ⟨r0, by simp [List.filter_cons, hka, hf], hk⟩

/-- One call of the upsert, from any store satisfying the uniqueness
constraint: the constraint is preserved and exactly one row for the key
remains, carrying the requested status and the timestamp of the call. -/
theorem CreateOrUpdateRSVP_pair (s : Store) (t u g : Nat) (st : String)
    (hu : RSVPPairUnique s) :
    RSVPPairUnique (CreateOrUpdateRSVP s t u g st) ∧
    ∃ r0, pairRows (CreateOrUpdateRSVP s t u g st) u g = [r0] ∧
      r0.userId = u ∧ r0.gameId = g ∧ r0.status = st ∧ r0.updatedAt = t := by
  by_cases hm : s.rsvps.any (rsvpKeyMatch u g) = true
  · have hrs : (CreateOrUpdateRSVP s t u g st).rsvps
        = s.rsvps.map (fun r =>
            if rsvpKeyMatch u g r then { r with status := st, updatedAt := t } else r) := by
      simp [CreateOrUpdateRSVP, hm]
    have hpres : ∀ r : RSVPRow,
        (if rsvpKeyMatch u g r then { r with status := st, updatedAt := t } else r).userId
            = r.userId ∧
        (if rsvpKeyMatch u g r then { r with status := st, updatedAt := t } else r).gameId
            = r.gameId := by
      intro r
      by_cases h : rsvpKeyMatch u g r = true
      · simp [h]
      · rw [Bool.not_eq_true] at h
        simp [h]
    have hfilter : pairRows (CreateOrUpdateRSVP s t u g st) u g
        = (s.rsvps.filter (rsvpKeyMatch u g)).map (fun r =>
            if rsvpKeyMatch u g r then { r with status := st, updatedAt := t } else r) := by
      rw [pairRows, hrs, List.filter_map]
      congr 1
      exact List.filter_congr (fun r _ => rsvpKeyMatch_update u g t st r)
    obtain ⟨r0, hsing, hk0⟩ := filter_key_singleton hu hm
    constructor
    · rw [RSVPPairUnique, hrs]
      refine List.Pairwise.map _ (fun a b hab => ?_) hu
      obtain ⟨ha1, ha2⟩ := hpres a
      obtain ⟨hb1, hb2⟩ := hpres b
      rw [ha1, ha2, hb1, hb2]
      exact hab
    · obtain ⟨hu0, hg0⟩ := rsvpKeyMatch_true.mp hk0
      refine ⟨{ r0 with status := st, updatedAt := t }, ?_, hu0, hg0, rfl, rfl⟩
      rw [hfilter, hsing]
      simp [hk0]
  · rw [Bool.not_eq_true] at hm
    have hrs : (CreateOrUpdateRSVP s t u g st).rsvps
        = s.rsvps ++ [⟨s.nextRsvpId, u, g, st, t, t⟩] := by
      simp [CreateOrUpdateRSVP, hm]
    have hnone : ∀ r ∈ s.rsvps, rsvpKeyMatch u g r = false := by
      intro r hr
      have := List.any_eq_false.mp hm r hr
      simpa using this
    constructor
    · rw [RSVPPairUnique, hrs]
      refine List.pairwise_append.mpr ⟨hu, List.pairwise_singleton _ _, ?_⟩
      intro a ha b hb
      simp only [List.mem_singleton] at hb
      subst hb
      intro hcon
      have : rsvpKeyMatch u g a = true := rsvpKeyMatch_true.mpr ⟨hcon.1, hcon.2⟩
      rw [hnone a ha] at this
      exact Bool.false_ne_true this
    · refine ⟨⟨s.nextRsvpId, u, g, st, t, t⟩, ?_, rfl, rfl, rfl, rfl⟩
      rw [pairRows, hrs, List.filter_append]
      rw [List.filter_eq_nil_iff.mpr (fun r hr => by simp [hnone r hr])]
      simp [rsvpKeyMatch]

/-! ## Claims -/

/-- C1: the upsert `CreateOrUpdateRSVP` is an insert-or-update keyed on
(user_id, game_id): with no row for the pair it appends one whose creation
and update timestamps are both the current time; with an existing row it
overwrites only the status and the update timestamp, keeping the creation
timestamp and every other row intact; and from any store satisfying the
uniqueness constraint, two calls with different valid statuses leave exactly
one row for the pair, holding the second status with an update timestamp at
or after the timestamp of the first call.  (The atomicity of the single
INSERT ... ON CONFLICT statement is delegated to SQLite and is not part of
the functional model.) -/
theorem rsvp_upsert_spec :
    (∀ (s : Store) (t u g : Nat) (st : String),
      pairRows s u g = [] →
        (CreateOrUpdateRSVP s t u g st).rsvps
          = s.rsvps ++ [⟨s.nextRsvpId, u, g, st, t, t⟩]) ∧
    (∀ (s : Store) (t u g : Nat) (st : String) (r0 : RSVPRow),
      pairRows s u g = [r0] →
        pairRows (CreateOrUpdateRSVP s t u g st) u g
            = [{ r0 with status := st, updatedAt := t }] ∧
        (CreateOrUpdateRSVP s t u g st).rsvps.filter (fun r => !rsvpKeyMatch u g r)
            = s.rsvps.filter (fun r => !rsvpKeyMatch u g r)) ∧
    (∀ (s : Store) (t1 t2 u g : Nat) (st1 st2 : String),
      RSVPPairUnique s → validRSVPStatus st1 = true → validRSVPStatus st2 = true →
      st1 ≠ st2 → t1 ≤ t2 →
      ∃ r0,
        pairRows (CreateOrUpdateRSVP (CreateOrUpdateRSVP s t1 u g st1) t2 u g st2) u g
            = [r0] ∧ r0.status = st2 ∧ t1 ≤ r0.updatedAt) := by
  refine ⟨?_, ?_, ?_⟩
  · intro s t u g st hempty
    have hnone : ∀ r ∈ s.rsvps, rsvpKeyMatch u g r = false := by
      intro r hr
      have := List.filter_eq_nil_iff.mp hempty r hr
      simpa using this
    have hm : s.rsvps.any (rsvpKeyMatch u g) = false :=
      List.any_eq_false.mpr (fun r hr => by simp [hnone r hr])
    simp [CreateOrUpdateRSVP, hm]
  · intro s t u g st r0 hsing
    have hmem : r0 ∈ s.rsvps.filter (rsvpKeyMatch u g) := by
      rw [pairRows] at hsing
      rw [hsing]
      exact List.mem_singleton_self r0
    have hk0 : rsvpKeyMatch u g r0 = true := List.of_mem_filter hmem
    have hm : s.rsvps.any (rsvpKeyMatch u g) = true :=
      List.any_eq_true.mpr ⟨r0, (List.mem_filter.mp hmem).1, hk0⟩
    have hrs : (CreateOrUpdateRSVP s t u g st).rsvps
        = s.rsvps.map (fun r =>
            if rsvpKeyMatch u g r then { r with status := st, updatedAt := t } else r) := by
      simp [CreateOrUpdateRSVP, hm]
    constructor
    · have hfil : pairRows (CreateOrUpdateRSVP s t u g st) u g
          = (s.rsvps.filter (rsvpKeyMatch u g)).map (fun r =>
              if rsvpKeyMatch u g r then { r with status := st, updatedAt := t }
              else r) := by
        rw [pairRows, hrs, List.filter_map]
        congr 1
        exact List.filter_congr (fun r _ => rsvpKeyMatch_update u g t st r)
      rw [pairRows] at hsing
      rw [hfil, hsing]
      simp [hk0]
    · have hfil2 : (CreateOrUpdateRSVP s t u g st).rsvps.filter
            (fun r => !rsvpKeyMatch u g r)
          = (s.rsvps.filter (fun r => !rsvpKeyMatch u g r)).map (fun r =>
              if rsvpKeyMatch u g r then { r with status := st, updatedAt := t }
              else r) := by
        rw [hrs, List.filter_map]
        congr 1
        exact List.filter_congr
          (fun r _ => congrArg Bool.not (rsvpKeyMatch_update u g t st r))
      rw [hfil2]
      have hid : ∀ r ∈ s.rsvps.filter (fun r => !rsvpKeyMatch u g r),
          (if rsvpKeyMatch u g r then { r with status := st, updatedAt := t }
           else r) = id r := by
        intro r hr
        have : rsvpKeyMatch u g r = false := by
          have := List.of_mem_filter hr
          simpa using this
        simp [this]
      rw [List.map_congr_left hid, List.map_id]
  · intro s t1 t2 u g st1 st2 hu _ _ _ h12
    obtain ⟨hu1, _, _, _, _, _, _⟩ := CreateOrUpdateRSVP_pair s t1 u g st1 hu
    obtain ⟨_, r2, hp2, _, _, hst2, hupd2⟩ :=
      CreateOrUpdateRSVP_pair (CreateOrUpdateRSVP s t1 u g st1) t2 u g st2 hu1
    exact ⟨r2, hp2, hst2, by rw [hupd2]; exact h12⟩

/-- Witness for `rsvp_upsert_spec`: insert into an empty table, update an
existing row, and two successive upserts for the same pair. -/
theorem rsvp_upsert_spec_witness :
    (CreateOrUpdateRSVP ⟨[], [], [], 0, 0, 0⟩ 5 1 2 "maybe").rsvps
        = [] ++ [⟨0, 1, 2, "maybe", 5, 5⟩] ∧
    pairRows
        (CreateOrUpdateRSVP ⟨[], [⟨0, 1, 2, "attending", 3, 3⟩], [], 0, 1, 0⟩ 7 1 2 "maybe")
        1 2 = [⟨0, 1, 2, "maybe", 3, 7⟩] ∧
    (∃ r0,
      pairRows
          (CreateOrUpdateRSVP
            (CreateOrUpdateRSVP ⟨[], [], [], 0, 0, 0⟩ 5 1 2 "attending") 7 1 2 "maybe")
          1 2 = [r0] ∧ r0.status = "maybe" ∧ 5 ≤ r0.updatedAt) := by
  obtain ⟨ha, hb, hc⟩ := rsvp_upsert_spec
  refine ⟨ha ⟨[], [], [], 0, 0, 0⟩ 5 1 2 "maybe" (by decide), ?_, ?_⟩
  · exact (hb ⟨[], [⟨0, 1, 2, "attending", 3, 3⟩], [], 0, 1, 0⟩ 7 1 2 "maybe"
      ⟨0, 1, 2, "attending", 3, 3⟩ (by decide)).1
  · exact hc ⟨[], [], [], 0, 0, 0⟩ 5 7 1 2 "attending" "maybe"
      (by decide) (by decide) (by decide) (by decide) (by decide)

/-- C4: logging in and then logging out invalidates the session: after `Logout`
deletes the token from `SessionStore`, `IsAuthenticated` is false for a request
still carrying the old cookie; and revocation is idempotent: deleting a token
absent from the registry (or logging out with no cookie at all) leaves the
registry unchanged and is not an error. -/
theorem logout_invalidates_session (st : SessionMap) (tok : String) (uid : Nat) :
    IsAuthenticated (Logout (sessionAssign st tok uid) (some tok)) (some tok) = false ∧
    ((∀ p ∈ st, p.1 ≠ tok) → Logout st (some tok) = st) ∧
    Logout st none = st := by
  refine ⟨?_, ?_, rfl⟩
  · simp [IsAuthenticated, Logout, sessionLookup_sessionDelete]
  · intro habsent
    simp only [Logout, sessionDelete]
    rw [List.filter_eq_self]
    intro p hp
    simpa using habsent p hp

/-- Witness for `logout_invalidates_session` at a concrete registry. -/
theorem logout_invalidates_session_witness :
    IsAuthenticated (Logout (sessionAssign [("t1", 1)] "t2" 5) (some "t2")) (some "t2")
        = false ∧
    Logout [("t1", 1)] (some "t2") = [("t1", 1)] ∧
    Logout [("t1", 1)] none = [("t1", 1)] := by
  obtain ⟨h1, h2, h3⟩ := logout_invalidates_session [("t1", 1)] "t2" 5
  exact ⟨h1, h2 (by decide), h3⟩

/-- C8: a failed login renders the same generic "Invalid email or password."
response whether the email is unknown or the email exists and the password is
wrong (both failure branches return the literally identical response value and
leave the session registry untouched), while a successful login stores the
fresh token in the registry, sets it as the session cookie and redirects to
the game list. -/
theorem login_failures_indistinguishable (s : Store) (sess : SessionMap)
    (tok e p : String) (he : e ≠ "") (hp : p ≠ "") :
    (GetUserByEmail s e = none → Login s sess tok e p = (sess, .invalidCreds)) ∧
    (∀ u, GetUserByEmail s e = some u → VerifyPassword u.passwordHash p = false →
      Login s sess tok e p = (sess, .invalidCreds)) ∧
    (∀ u, GetUserByEmail s e = some u → VerifyPassword u.passwordHash p = true →
      Login s sess tok e p = (sessionAssign sess tok u.id, .redirect tok "/games")) := by
  have he' : (e == "") = false := by simp [he]
  have hp' : (p == "") = false := by simp [hp]
  refine ⟨?_, ?_, ?_⟩
  · intro h
    simp [Login, he', hp', h]
  · intro u h hv
    simp [Login, he', hp', h, hv]
  · intro u h hv
    simp [Login, he', hp', h, hv]

/-- Witness for `login_failures_indistinguishable`: one registered user,
"a@x" with password "pw"; an unknown email and a wrong password produce the
same response, and the correct credentials log in. -/
theorem login_failures_indistinguishable_witness :
    Login ⟨[⟨1, "a@x", hashPassword "pw", 0⟩], [], [], 2, 1, 1⟩ [] "tk" "b@x" "pw"
        = ([], .invalidCreds) ∧
    Login ⟨[⟨1, "a@x", hashPassword "pw", 0⟩], [], [], 2, 1, 1⟩ [] "tk" "a@x" "no"
        = ([], .invalidCreds) ∧
    Login ⟨[⟨1, "a@x", hashPassword "pw", 0⟩], [], [], 2, 1, 1⟩ [] "tk" "a@x" "pw"
        = (sessionAssign [] "tk" 1, .redirect "tk" "/games") := by
  obtain ⟨h1, h2, h3⟩ :=
    login_failures_indistinguishable
      ⟨[⟨1, "a@x", hashPassword "pw", 0⟩], [], [], 2, 1, 1⟩ [] "tk" "b@x" "pw"
      (by decide) (by decide)
  obtain ⟨g1, g2, g3⟩ :=
    login_failures_indistinguishable
      ⟨[⟨1, "a@x", hashPassword "pw", 0⟩], [], [], 2, 1, 1⟩ [] "tk" "a@x" "no"
      (by decide) (by decide)
  obtain ⟨f1, f2, f3⟩ :=
    login_failures_indistinguishable
      ⟨[⟨1, "a@x", hashPassword "pw", 0⟩], [], [], 2, 1, 1⟩ [] "tk" "a@x" "pw"
      (by decide) (by decide)
  refine ⟨h1 (by decide), g2 ⟨1, "a@x", hashPassword "pw", 0⟩ (by decide) (by decide),
    f3 ⟨1, "a@x", hashPassword "pw", 0⟩ (by decide) (by decide)⟩

/-- C2: `SubmitRSVP` validates the status against the three enumerated values
{attending, not_attending, maybe}; any other status is rejected with the
invalid-status error and the store is returned unchanged (no RSVP row is
produced), while a status in the set reaches `CreateOrUpdateRSVP`. -/
theorem submit_rsvp_validates_status (s : Store) (now u g : Nat) (st : String) :
    (st ≠ RSVPStatusAttending → st ≠ RSVPStatusNotAttending → st ≠ RSVPStatusMaybe →
      SubmitRSVP s now u g st = (s, .invalidStatus)) ∧
    (validRSVPStatus st = true →
      SubmitRSVP s now u g st = (CreateOrUpdateRSVP s now u g st, .ok)) := by
  constructor
  · intro h1 h2 h3
    have hv : validRSVPStatus st = false := by
      simp [validRSVPStatus, h1, h2, h3]
    simp [SubmitRSVP, hv]
  · intro hv
    simp [SubmitRSVP, hv]

/-- Witness for `submit_rsvp_validates_status`: the status "bogus" is rejected
without touching the store, and "maybe" is accepted. -/
theorem submit_rsvp_validates_status_witness :
    SubmitRSVP ⟨[], [], [], 0, 0, 0⟩ 9 1 2 "bogus"
        = (⟨[], [], [], 0, 0, 0⟩, .invalidStatus) ∧
    SubmitRSVP ⟨[], [], [], 0, 0, 0⟩ 9 1 2 "maybe"
        = (CreateOrUpdateRSVP ⟨[], [], [], 0, 0, 0⟩ 9 1 2 "maybe", .ok) := by
  obtain ⟨h1, _⟩ := submit_rsvp_validates_status ⟨[], [], [], 0, 0, 0⟩ 9 1 2 "bogus"
  obtain ⟨_, h2⟩ := submit_rsvp_validates_status ⟨[], [], [], 0, 0, 0⟩ 9 1 2 "maybe"
  exact ⟨h1 (by decide) (by decide) (by decide), h2 (by decide)⟩

/-- C10: for a game id with no associated rows — in particular a game id that
does not exist at all — both `GetRSVPsForGame` and `GetChatMessagesForGame`
return the empty list (and, in the Go code, a nil error), so a nonexistent
game is indistinguishable at this interface from an existing game with no
RSVPs or messages. -/
theorem listings_empty_without_rows (s : Store) (g : Nat) :
    ((∀ r ∈ s.rsvps, r.gameId ≠ g) → GetRSVPsForGame s g = []) ∧
    ((∀ m ∈ s.chat, m.gameId ≠ g) → GetChatMessagesForGame s g = []) := by
  constructor
  · intro h
    have hf : s.rsvps.filter (fun r => r.gameId == g) = [] := by
      rw [List.filter_eq_nil_iff]
      intro r hr
      simp [h r hr]
    simp [GetRSVPsForGame, hf, joinRSVPUsers]
  · intro h
    have hf : s.chat.filter (fun m => m.gameId == g) = [] := by
      rw [List.filter_eq_nil_iff]
      intro m hm
      simp [h m hm]
    simp [GetChatMessagesForGame, hf, joinChatUsers]

/-- Witness for `listings_empty_without_rows`: a store whose only RSVP and
chat rows belong to game 1 yields empty listings for game 2. -/
theorem listings_empty_without_rows_witness :
    GetRSVPsForGame ⟨[⟨1, "a@x", "h", 0⟩], [⟨1, 1, 1, "maybe", 3, 3⟩],
        [⟨1, 1, 1, "hi", 4⟩], 2, 2, 2⟩ 2 = [] ∧
    GetChatMessagesForGame ⟨[⟨1, "a@x", "h", 0⟩], [⟨1, 1, 1, "maybe", 3, 3⟩],
        [⟨1, 1, 1, "hi", 4⟩], 2, 2, 2⟩ 2 = [] := by
  obtain ⟨h1, h2⟩ := listings_empty_without_rows
    ⟨[⟨1, "a@x", "h", 0⟩], [⟨1, 1, 1, "maybe", 3, 3⟩], [⟨1, 1, 1, "hi", 4⟩], 2, 2, 2⟩ 2
  exact ⟨h1 (by decide), h2 (by decide)⟩

/-- C5: `GetRSVPsForGame` returns all RSVPs of the game (each joined
with the email of the submitter) ordered by update timestamp descending; in particular,
after three RSVPs submitted in sequence by users A then B then C (strictly
increasing timestamps), the listing is ordered C, B, A. -/
theorem rsvp_listing_most_recent_first :
    (∀ (s : Store) (g : Nat),
      List.Sorted rsvpUpdatedDesc (GetRSVPsForGame s g) ∧
      (GetRSVPsForGame s g).Perm
        (joinRSVPUsers s.users (s.rsvps.filter (fun r => r.gameId == g)))) ∧
    (∀ (A B C : UserRow) (g t1 t2 t3 nu nr nc : Nat) (st1 st2 st3 : String),
      A.id ≠ B.id → A.id ≠ C.id → B.id ≠ C.id → t1 < t2 → t2 < t3 →
      (GetRSVPsForGame
          (CreateOrUpdateRSVP
            (CreateOrUpdateRSVP
              (CreateOrUpdateRSVP ⟨[A, B, C], [], [], nu, nr, nc⟩ t1 A.id g st1)
              t2 B.id g st2)
            t3 C.id g st3) g).map (fun v => (v.userId, v.userEmail))
        = [(C.id, C.email), (B.id, B.email), (A.id, A.email)]) := by
  constructor
  · intro s g
    exact ⟨List.sorted_insertionSort _ _, List.perm_insertionSort _ _⟩
  · intro A B C g t1 t2 t3 nu nr nc st1 st2 st3 hAB hAC hBC h12 h23
    have hAB' : (A.id == B.id) = false := by simp [hAB]
    have hAC' : (A.id == C.id) = false := by simp [hAC]
    have hBC' : (B.id == C.id) = false := by simp [hBC]
    have h21 : ¬(t2 ≤ t1) := by omega
    have h31 : ¬(t3 ≤ t1) := by omega
    have h32 : ¬(t3 ≤ t2) := by omega
    simp [GetRSVPsForGame, CreateOrUpdateRSVP, rsvpKeyMatch, joinRSVPUsers,
      List.find?, rsvpUpdatedDesc, hAB', hAC', hBC', h21, h31, h32]

/-- Witness for `rsvp_listing_most_recent_first` at three concrete users and
timestamps 1 < 2 < 3. -/
theorem rsvp_listing_most_recent_first_witness :
    (GetRSVPsForGame
        (CreateOrUpdateRSVP
          (CreateOrUpdateRSVP
            (CreateOrUpdateRSVP
              ⟨[⟨1, "a@x", "h", 0⟩, ⟨2, "b@x", "h", 0⟩, ⟨3, "c@x", "h", 0⟩],
                [], [], 4, 1, 1⟩ 1 1 9 "attending")
            2 2 9 "not_attending")
          3 3 9 "maybe") 9).map (fun v => (v.userId, v.userEmail))
      = [(3, "c@x"), (2, "b@x"), (1, "a@x")] := by
  have h := rsvp_listing_most_recent_first.2
    ⟨1, "a@x", "h", 0⟩ ⟨2, "b@x", "h", 0⟩ ⟨3, "c@x", "h", 0⟩ 9 1 2 3 4 1 1
    "attending" "not_attending" "maybe"
    (by decide) (by decide) (by decide) (by decide) (by decide)
  exact h

/-- C6: `GetChatMessagesForGame` returns all messages of the game (each
joined with the email of the author) in ascending creation-time order, oldest
first — the inverse sort direction of the RSVP listing. -/
theorem chat_listing_ascending (s : Store) (g : Nat) :
    List.Sorted chatCreatedAsc (GetChatMessagesForGame s g) ∧
    (GetChatMessagesForGame s g).Perm
      (joinChatUsers s.users (s.chat.filter (fun m => m.gameId == g))) :=
  ⟨List.sorted_insertionSort _ _, List.perm_insertionSort _ _⟩

/-- C7: posting a chat message whose content trims to the empty string is
rejected: the store is unchanged and the existing transcript is re-rendered
together with the empty-content error; content that survives trimming is
appended as a new `chat_messages` row stamped with the current time. -/
theorem post_chat_rejects_blank (s : Store) (now u g : Nat) (content : String) :
    (trimSpace content = "" →
      PostChatMessage s now u g content
        = (s, .emptyContent (GetChatMessagesForGame s g))) ∧
    (trimSpace content ≠ "" → ∀ usr, GetUserByID s u = some usr →
      PostChatMessage s now u g content
        = ({ s with chat := s.chat ++ [⟨s.nextChatId, g, u, content, now⟩],
                    nextChatId := s.nextChatId + 1 },
           .posted (GetChatMessagesForGame
             { s with chat := s.chat ++ [⟨s.nextChatId, g, u, content, now⟩],
                      nextChatId := s.nextChatId + 1 } g))) := by
  constructor
  · intro h
    simp [PostChatMessage, h]
  · intro h usr husr
    have h' : (trimSpace content == "") = false := by simp [h]
    rw [GetUserByID] at husr
    simp [PostChatMessage, h', CreateChatMessage, husr]

/-- Witness for `post_chat_rejects_blank`: whitespace-only content is
rejected with the existing transcript; real content is appended. -/
theorem post_chat_rejects_blank_witness :
    PostChatMessage ⟨[⟨1, "a@x", "h", 0⟩], [], [], 2, 1, 1⟩ 7 1 3 "  "
      = (⟨[⟨1, "a@x", "h", 0⟩], [], [], 2, 1, 1⟩,
         .emptyContent (GetChatMessagesForGame ⟨[⟨1, "a@x", "h", 0⟩], [], [], 2, 1, 1⟩ 3)) ∧
    PostChatMessage ⟨[⟨1, "a@x", "h", 0⟩], [], [], 2, 1, 1⟩ 7 1 3 "hi"
      = (⟨[⟨1, "a@x", "h", 0⟩], [], [⟨1, 3, 1, "hi", 7⟩], 2, 1, 2⟩,
         .posted (GetChatMessagesForGame
           ⟨[⟨1, "a@x", "h", 0⟩], [], [⟨1, 3, 1, "hi", 7⟩], 2, 1, 2⟩ 3)) := by
  obtain ⟨h1, _⟩ := post_chat_rejects_blank ⟨[⟨1, "a@x", "h", 0⟩], [], [], 2, 1, 1⟩ 7 1 3 "  "
  obtain ⟨_, h2⟩ := post_chat_rejects_blank ⟨[⟨1, "a@x", "h", 0⟩], [], [], 2, 1, 1⟩ 7 1 3 "hi"
  exact ⟨h1 (by decide), h2 (by decide) ⟨1, "a@x", "h", 0⟩ (by decide)⟩

/-- C9: registering an email that is not yet taken succeeds and leaves exactly
one user with that email; a second registration of the same email is rejected
with the user-facing "Email already registered." validation error and changes
nothing; and registration preserves the at-most-one-user-per-email
invariant. -/
theorem register_duplicate_email_rejected :
    (∀ (s : Store) (t1 t2 : Nat) (e p p2 c2 : String),
      GetUserByEmail s e = none → e ≠ "" → p ≠ "" → p2 ≠ "" → p2 = c2 →
      (Register s t1 e p p).2 = .redirectLogin ∧
      (emailRows (Register s t1 e p p).1 e).length = 1 ∧
      Register (Register s t1 e p p).1 t2 e p2 c2
        = ((Register s t1 e p p).1, .emailTaken)) ∧
    (∀ (s : Store) (t : Nat) (e p c : String),
      EmailUnique s → EmailUnique (Register s t e p c).1) := by
  constructor
  · intro s t1 t2 e p p2 c2 hnone he hp hp2 hc2
    subst hc2
    have he' : (e == "") = false := by simp [he]
    have hp' : (p == "") = false := by simp [hp]
    have hp2' : (p2 == "") = false := by simp [hp2]
    have hall : ∀ v ∈ s.users, (v.email == e) = false := by
      intro v hv
      have := List.find?_eq_none.mp hnone v hv
      simpa using this
    have hany : s.users.any (fun u => u.email == e) = false :=
      List.any_eq_false.mpr (fun v hv => by simp [hall v hv])
    have hreg1 : Register s t1 e p p
        = ({ s with
              users := s.users ++ [⟨s.nextUserId, e, hashPassword p, t1⟩],
              nextUserId := s.nextUserId + 1 }, .redirectLogin) := by
      simp [Register, he', hp', hnone, CreateUser, hany]
    have hfind1 : GetUserByEmail (Register s t1 e p p).1 e
        = some ⟨s.nextUserId, e, hashPassword p, t1⟩ := by
      rw [hreg1]
      simp only [GetUserByEmail, List.find?_append]
      rw [List.find?_eq_none.mpr (fun v hv => by simp [hall v hv])]
      simp [List.find?]
    refine ⟨by rw [hreg1], ?_, ?_⟩
    · rw [hreg1]
      simp only [emailRows, List.filter_append]
      rw [List.filter_eq_nil_iff.mpr (fun v hv => by simp [hall v hv])]
      simp
    · rw [hreg1] at hfind1 ⊢
      simp [Register, he', hp2', hfind1]
  · intro s t e p c hu
    by_cases h1 : (e == "" || p == "") = true
    · simpa [Register, h1] using hu
    · rw [Bool.not_eq_true] at h1
      by_cases h2 : (p != c) = true
      · simpa [Register, h1, h2] using hu
      · rw [Bool.not_eq_true] at h2
        cases hfind : GetUserByEmail s e with
        | some u0 => simpa [Register, h1, h2, hfind] using hu
        | none =>
          by_cases hany : s.users.any (fun v => v.email == e) = true
          · simpa [Register, h1, h2, hfind, CreateUser, hany] using hu
          · rw [Bool.not_eq_true] at hany
            simp only [Register, h1, h2, hfind, CreateUser, hany, Bool.false_eq_true,
              if_false]
            refine List.pairwise_append.mpr ⟨hu, List.pairwise_singleton _ _, ?_⟩
            intro a ha b hb
            simp only [List.mem_singleton] at hb
            subst hb
            have := List.any_eq_false.mp hany a ha
            simpa using this

/-- Witness for `register_duplicate_email_rejected`: registering "a@x" into an
empty store succeeds and a second registration of "a@x" is rejected. -/
theorem register_duplicate_email_rejected_witness :
    (Register ⟨[], [], [], 1, 1, 1⟩ 4 "a@x" "pw" "pw").2 = .redirectLogin ∧
    (emailRows (Register ⟨[], [], [], 1, 1, 1⟩ 4 "a@x" "pw" "pw").1 "a@x").length = 1 ∧
    Register (Register ⟨[], [], [], 1, 1, 1⟩ 4 "a@x" "pw" "pw").1 5 "a@x" "qq" "qq"
      = ((Register ⟨[], [], [], 1, 1, 1⟩ 4 "a@x" "pw" "pw").1, .emailTaken) ∧
    EmailUnique (Register ⟨[], [], [], 1, 1, 1⟩ 4 "a@x" "pw" "pw").1 := by
  obtain ⟨hmain, hpres⟩ := register_duplicate_email_rejected
  obtain ⟨h1, h2, h3⟩ := hmain ⟨[], [], [], 1, 1, 1⟩ 4 5 "a@x" "pw" "qq" "qq"
    (by decide) (by decide) (by decide) (by decide) rfl
  exact ⟨h1, h2, h3, hpres ⟨[], [], [], 1, 1, 1⟩ 4 "a@x" "pw" "pw" (by decide)⟩

end Scheduler
